import Mathlib

/-!
Shallow embedding of the two Ansible modules of this repository
(`system_info.py` and `hostname_check.py`) and proofs about them.

The host a module runs on is modelled as a `HostState`: a pure description
of what every external query would answer (subprocess runs, file existence,
file reads, directory listings).  Each Python collector becomes a Lean
function from `HostState` to its result value; a caught `IOError` /
`PermissionError` on a file read is modelled by `readFile` returning `none`,
and an uncaught `OSError` from `os.listdir` is modelled by `listDir`
returning `Except.error`, which the collector propagates.  The Python
idiom `list(set(...))` is modelled with `pyDedup` (the enumeration order
of a Python set is unspecified; no claim depends on it).

The Python string primitives (`strip`, `split`, `startswith`, `in`) are
implemented here by structural recursion on the character list of the
string, so that every definition evaluates by kernel reduction on concrete
inputs.
-/

/-! ## Python string primitives, structurally recursive -/

/-- Python `str.strip()`: drop leading and trailing whitespace. -/
def pyStrip (s : String) : String :=
  ⟨((s.data.dropWhile Char.isWhitespace).reverse.dropWhile Char.isWhitespace).reverse⟩

/-- Split a character list at every occurrence of the character `sep`;
yields one (possibly empty) chunk more than the number of separators. -/
def splitChar (sep : Char) : List Char → List (List Char)
  | [] => [[]]
  | c :: rest =>
    if c = sep then [] :: splitChar sep rest
    else
      match splitChar sep rest with
      | [] => [[c]]
      | t :: ts => (c :: t) :: ts

/-- Python `str.split(sep)` for a one-character separator. -/
def pySplitOnChar (s : String) (sep : Char) : List String :=
  (splitChar sep s.data).map (fun l => (⟨l⟩ : String))

/-- The lines of a file body or command output, Python `split` on a
newline (also models iterating over an open file, whose lines are then
stripped or matched by a leading token, which ignores the trailing newline
kept by Python). -/
def linesOf (s : String) : List String :=
  pySplitOnChar s '\n'

/-- Split a character list at every character satisfying `p`. -/
def splitPred (p : Char → Bool) : List Char → List (List Char)
  | [] => [[]]
  | c :: rest =>
    if p c then [] :: splitPred p rest
    else
      match splitPred p rest with
      | [] => [[c]]
      | t :: ts => (c :: t) :: ts

/-- Python `str.split()` with no argument: split on whitespace runs,
dropping empty tokens. -/
def splitWhite (s : String) : List String :=
  ((splitPred Char.isWhitespace s.data).map (fun l => (⟨l⟩ : String))).filter (fun t => t ≠ "")

/-- Occurrence of a character-list pattern inside a character list. -/
def listContainsSub (pat : List Char) : List Char → Bool
  | [] => pat.isEmpty
  | c :: rest => pat.isPrefixOf (c :: rest) || listContainsSub pat rest

/-- Python substring test `pat in s`. -/
def strContains (s pat : String) : Bool :=
  listContainsSub pat.data s.data

/-- Python `str.startswith(pre)`. -/
def pyStartsWith (s pre : String) : Bool :=
  pre.data.isPrefixOf s.data

/-- Deduplication keeping first occurrences, modelling the Python idiom
`list(set(...))` up to the unspecified enumeration order of a set. -/
def pyDedupAcc : List String → List String → List String
  | [], acc => acc.reverse
  | x :: xs, acc => if acc.contains x then pyDedupAcc xs acc else pyDedupAcc xs (x :: acc)

/-- Deduplicate a list of strings. -/
def pyDedup (l : List String) : List String :=
  pyDedupAcc l []

/-! ## Host model -/

/-- Result of `module.run_command`: exit code, stdout, stderr. -/
structure CmdResult where
  rc : Int
  out : String
  err : String
deriving Repr, DecidableEq

/-- Pure description of the host environment the module inspects. -/
structure HostState where
  runCmd : String → CmdResult
  pathExists : String → Bool
  readFile : String → Option String
  listDir : String → Except String (List String)
  isFile : String → Bool

/-! ## get_sudo_users -/

/-- Scan of one sudoers-style file body (the inner `for line in f` loop of
`get_sudo_users`): skip comments and blanks, take the first token of lines
containing `ALL=(ALL` or `ALL = (ALL`, excluding `root` and `%`-group
entries. -/
def sudoersUsersOf (content : String) : List String :=
  (linesOf content).foldl (fun acc line =>
    let line := pyStrip line
    if pyStartsWith line "#" || line == "" then acc
    else if strContains line "ALL=(ALL" || strContains line "ALL = (ALL" then
      let user := (splitWhite line).headD ""
      if !(["root", "%sudo", "%wheel", "%admin"].contains user) && !(pyStartsWith user "%") then
        acc ++ [user]
      else acc
    else acc) []

/-- Scan of the group database (the second loop of `get_sudo_users`):
members of the `sudo` and `wheel` groups, i.e. the comma-separated fourth
colon field. -/
def groupUsersOf (content : String) : List String :=
  (linesOf content).foldl (fun acc line =>
    if pyStartsWith line "sudo:" || pyStartsWith line "wheel:" then
      let parts := pySplitOnChar (pyStrip line) ':'
      if 4 ≤ parts.length && !(parts.getD 3 "" == "") then
        acc ++ pySplitOnChar (parts.getD 3 "") ','
      else acc
    else acc) []

/-- The loops of `get_sudo_users` over an already-enumerated candidate
file list: scan each readable sudoers source (an unreadable one is skipped
by the `except` clause), then the group database, then deduplicate. -/
def collectSudoUsers (s : HostState) (files : List String) : List String :=
  let fromFiles := files.foldl (fun acc fp =>
    match s.readFile fp with
    | some content => acc ++ sudoersUsersOf content
    | none => acc) []
  let total :=
    match s.readFile "/etc/group" with
    | some content => fromFiles ++ groupUsersOf content
    | none => fromFiles
  pyDedup total

/-- Candidate drop-in files of `get_sudo_users`: every regular file in
the sudoers drop-in directory, given the directory listing. -/
def sudoersDropIns (s : HostState) (entries : List String) : List String :=
  (entries.filter (fun f => s.isFile ("/etc/sudoers.d/" ++ f))).map
    (fun f => "/etc/sudoers.d/" ++ f)

/-- Embedding of `get_sudo_users`.  The `os.listdir` call on
the drop-in directory sits outside every `try`/`except` in the source, so
a listing failure propagates (`Except.error`); per-file open failures are
caught and skipped (`readFile _ = none` contributes nothing). -/
def get_sudo_users (s : HostState) : Except String (List String) :=
  if s.pathExists "/etc/sudoers.d" then
    match s.listDir "/etc/sudoers.d" with
    | Except.error e => Except.error e
    | Except.ok entries =>
      Except.ok (collectSudoUsers s (["/etc/sudoers"] ++ sudoersDropIns s entries))
  else Except.ok (collectSudoUsers s ["/etc/sudoers"])

/-! ## get_ntp_settings -/

/-- The `ntp_info` dictionary of `get_ntp_settings`. -/
structure NtpInfo where
  service : String
  enabled : Bool
  servers : List String
  status : String
deriving Repr, DecidableEq

/-- Server extraction from the chrony config: lines starting with `server`
or `pool`, second whitespace token. -/
def chronyServersOf (content : String) : List String :=
  (linesOf content).foldl (fun acc line =>
    if pyStartsWith (pyStrip line) "server" || pyStartsWith (pyStrip line) "pool" then
      let parts := splitWhite line
      if 2 ≤ parts.length then acc ++ [parts.getD 1 ""] else acc
    else acc) []

/-- Server extraction from the ntp config: lines starting with `server`,
second whitespace token. -/
def ntpServersOf (content : String) : List String :=
  (linesOf content).foldl (fun acc line =>
    if pyStartsWith (pyStrip line) "server" then
      let parts := splitWhite line
      if 2 ≤ parts.length then acc ++ [parts.getD 1 ""] else acc
    else acc) []

/-- Server extraction from `timedatectl show-timesync --all` output: lines
containing `ServerName=`, the part after the first `=`, stripped, if
non-empty. -/
def timesyncServersOf (out : String) : List String :=
  (linesOf out).foldl (fun acc line =>
    if strContains line "ServerName=" then
      let server := pyStrip ((pySplitOnChar line '=').getD 1 "")
      if server ≠ "" then acc ++ [server] else acc
    else acc) []

/-- The chronyd block of `get_ntp_settings`: probe `which chronyd`; on
success claim the service, query its active status and read its config.
Returns the updated info and the list of commands run. -/
def chronyBlock (s : HostState) (info : NtpInfo) : NtpInfo × List String :=
  if (s.runCmd "which chronyd").rc = 0 then
    let st := pyStrip (s.runCmd "systemctl is-active chronyd").out
    let info := { info with service := "chronyd", enabled := st == "active", status := st }
    let info :=
      if s.pathExists "/etc/chrony.conf" then
        match s.readFile "/etc/chrony.conf" with
        | some content => { info with servers := info.servers ++ chronyServersOf content }
        | none => info
      else info
    (info, ["which chronyd", "systemctl is-active chronyd"])
  else (info, ["which chronyd"])

/-- The ntpd block of `get_ntp_settings`.  Note the `which ntpd` probe runs
unconditionally in the source; only the body is guarded by the check that
`service` still equals the sentinel `"unknown"`. -/
def ntpdBlock (s : HostState) (info : NtpInfo) : NtpInfo × List String :=
  if (s.runCmd "which ntpd").rc = 0 ∧ info.service = "unknown" then
    let st := pyStrip (s.runCmd "systemctl is-active ntpd").out
    let info := { info with service := "ntpd", enabled := st == "active", status := st }
    let info :=
      if s.pathExists "/etc/ntp.conf" then
        match s.readFile "/etc/ntp.conf" with
        | some content => { info with servers := info.servers ++ ntpServersOf content }
        | none => info
      else info
    (info, ["which ntpd", "systemctl is-active ntpd"])
  else (info, ["which ntpd"])

/-- The systemd-timesyncd block of `get_ntp_settings`; same guard shape as
the ntpd block, servers from `timedatectl show-timesync --all` when that
command succeeds. -/
def timesyncdBlock (s : HostState) (info : NtpInfo) : NtpInfo × List String :=
  if (s.runCmd "which systemd-timesyncd").rc = 0 ∧ info.service = "unknown" then
    let st := pyStrip (s.runCmd "systemctl is-active systemd-timesyncd").out
    let info := { info with service := "systemd-timesyncd", enabled := st == "active", status := st }
    let r := s.runCmd "timedatectl show-timesync --all"
    let info :=
      if r.rc = 0 then { info with servers := info.servers ++ timesyncServersOf r.out }
      else info
    (info,
     ["which systemd-timesyncd", "systemctl is-active systemd-timesyncd",
      "timedatectl show-timesync --all"])
  else (info, ["which systemd-timesyncd"])

/-- Initial `ntp_info` dictionary of `get_ntp_settings`. -/
def initNtp : NtpInfo :=
  ⟨"unknown", false, [], "unknown"⟩

/-- Embedding of `get_ntp_settings`, instrumented with the trace of
commands passed to `module.run_command` (second component). -/
def get_ntp_settings (s : HostState) : NtpInfo × List String :=
  let b1 := chronyBlock s initNtp
  let b2 := ntpdBlock s b1.1
  let b3 := timesyncdBlock s b2.1
  (b3.1, b1.2 ++ b2.2 ++ b3.2)

/-! ## get_dns_settings -/

/-- The `dns_info` dictionary of `get_dns_settings`. -/
structure DnsInfo where
  nameservers : List String
  search_domains : List String
  resolv_conf : String
deriving Repr, DecidableEq

/-- One iteration of the resolver-file loop: `nameserver <addr>` appends
the address, `search <dom> ...` appends all listed domains. -/
def dnsStep (acc : List String × List String) (line : String) : List String × List String :=
  let line := pyStrip line
  if pyStartsWith line "nameserver" then
    let parts := splitWhite line
    if 2 ≤ parts.length then (acc.1 ++ [parts.getD 1 ""], acc.2) else acc
  else if pyStartsWith line "search" then
    let parts := splitWhite line
    if 2 ≤ parts.length then (acc.1, acc.2 ++ parts.drop 1) else acc
  else acc

/-- Embedding of `get_dns_settings`. -/
def get_dns_settings (s : HostState) : DnsInfo :=
  if s.pathExists "/etc/resolv.conf" then
    match s.readFile "/etc/resolv.conf" with
    | some content =>
      let p := (linesOf content).foldl dnsStep ([], [])
      { nameservers := p.1, search_domains := p.2, resolv_conf := "/etc/resolv.conf" }
    | none => { nameservers := [], search_domains := [], resolv_conf := "/etc/resolv.conf" }
  else { nameservers := [], search_domains := [], resolv_conf := "/etc/resolv.conf" }

/-! ## get_ipv6_status -/

/-- The `ipv6_info` dictionary of `get_ipv6_status`; `status` is `none`
while the key is absent from the Python dict. -/
structure Ipv6Info where
  disabled : Bool
  disable_method : List String
  sysctl_values : List (String × String)
  status : Option String
deriving Repr, DecidableEq

/-- The three kernel parameters queried by the sysctl pass. -/
def sysctl_params : List String :=
  ["net.ipv6.conf.all.disable_ipv6", "net.ipv6.conf.default.disable_ipv6",
   "net.ipv6.conf.lo.disable_ipv6"]

/-- The three bootloader config candidates scanned by the grub pass. -/
def grub_files : List String :=
  ["/etc/default/grub", "/boot/grub/grub.cfg", "/boot/grub2/grub.cfg"]

/-- Value extraction of the sysctl pass, the source expression
`out.strip().split(chr(61))[-1].strip()` with `chr(61)` the equals sign. -/
def sysctlValueOf (s : HostState) (param : String) : String :=
  pyStrip ((pySplitOnChar (pyStrip (s.runCmd ("sysctl " ++ param)).out) '=').getLastD "")

/-- Condition under which the sysctl pass marks IPv6 disabled for one
parameter: the query succeeded and the extracted value is `"1"`. -/
def sysctlMatches (s : HostState) (param : String) : Bool :=
  (s.runCmd ("sysctl " ++ param)).rc == 0 && sysctlValueOf s param == "1"

/-- One iteration of the sysctl loop of `get_ipv6_status`: on success record
the value; if it is `"1"` set `disabled` and append `"sysctl"` to
`disable_method` (the source has no dedup check here). -/
def sysctlStep (s : HostState) (info : Ipv6Info) (param : String) : Ipv6Info :=
  if (s.runCmd ("sysctl " ++ param)).rc = 0 then
    let value := sysctlValueOf s param
    let info1 := { info with sysctl_values := info.sysctl_values ++ [(param, value)] }
    if value = "1" then
      { info1 with disabled := true, disable_method := info1.disable_method ++ ["sysctl"] }
    else info1
  else info

/-- The sysctl loop over the queried parameter list. -/
def sysctlPass (s : HostState) : List String → Ipv6Info → Ipv6Info
  | [], info => info
  | p :: ps, info => sysctlPass s ps (sysctlStep s info p)

/-- Condition under which the grub pass marks IPv6 disabled for one file:
it exists, is readable, and contains `ipv6.disable=1`. -/
def grubMatches (s : HostState) (gf : String) : Bool :=
  s.pathExists gf &&
    (match s.readFile gf with
     | some content => strContains content "ipv6.disable=1"
     | none => false)

/-- One iteration of the grub loop of `get_ipv6_status`: set `disabled` and
append `"grub"` to `disable_method`, deduplicated. -/
def grubStep (s : HostState) (info : Ipv6Info) (gf : String) : Ipv6Info :=
  if s.pathExists gf then
    match s.readFile gf with
    | some content =>
      if strContains content "ipv6.disable=1" then
        let info1 := { info with disabled := true }
        if info1.disable_method.contains "grub" then info1
        else { info1 with disable_method := info1.disable_method ++ ["grub"] }
      else info
    | none => info
  else info

/-- The grub loop over the bootloader file candidates. -/
def grubPass (s : HostState) : List String → Ipv6Info → Ipv6Info
  | [], info => info
  | g :: gs, info => grubPass s gs (grubStep s info g)

/-- A live output line counts as an active IPv6 address when it contains
`inet6` and not `::1`. -/
def liveLineHasIpv6 (line : String) : Bool :=
  strContains line "inet6" && !(strContains line "::1")

/-- The live-interface correlation pass of `get_ipv6_status`: on a
successful, non-empty `ip -6 addr show`, a non-loopback `inet6` line forces
`status = enabled` and clears `disabled`; no such line plus prior
`disabled` evidence yields `status = disabled`; otherwise nothing changes. -/
def livePass (s : HostState) (info : Ipv6Info) : Ipv6Info :=
  let r := s.runCmd "ip -6 addr show"
  if r.rc = 0 ∧ pyStrip r.out ≠ "" then
    let has_ipv6 := (linesOf r.out).any liveLineHasIpv6
    if has_ipv6 = false ∧ info.disabled = true then { info with status := some "disabled" }
    else if has_ipv6 = true then { info with disabled := false, status := some "enabled" }
    else info
  else info

/-- Embedding of `get_ipv6_status`: sysctl pass, then grub pass, then
live-interface correlation. -/
def get_ipv6_status (s : HostState) : Ipv6Info :=
  livePass s (grubPass s grub_files (sysctlPass s sysctl_params ⟨false, [], [], none⟩))

/-! ## main of system_info and of hostname_check -/

/-- Outcome of a module invocation: `module.exit_json` with the four fact
blocks, or `module.fail_json` with one message. -/
inductive ModuleResult where
  | exit (changed : Bool) (sudo_users : List String) (ntp_settings : NtpInfo)
      (dns_settings : DnsInfo) (ipv6_status : Ipv6Info)
  | fail (msg : String)
deriving DecidableEq

/-- Embedding of `main` of `system_info.py`: the four collectors run in
sequence inside one `try`; the only uncaught exception path in the source
is the drop-in directory listing in `get_sudo_users`, whose message becomes
the single `fail_json` message. -/
def system_info_main (s : HostState) : ModuleResult :=
  match get_sudo_users s with
  | Except.error e => ModuleResult.fail e
  | Except.ok users =>
    ModuleResult.exit false users (get_ntp_settings s).1 (get_dns_settings s)
      (get_ipv6_status s)

/-- Outcome of a `hostname_check` invocation. -/
inductive HostnameResult where
  | exit (changed : Bool) (hostname : String) (msg : String)
  | fail (msg : String)
deriving DecidableEq

/-- Embedding of `main` of `hostname_check.py`: `socket.gethostname` either
returns a name or raises with some message. -/
def hostname_check_main (g : Except String String) : HostnameResult :=
  match g with
  | Except.ok h => HostnameResult.exit false h ("Hostname (Python): " ++ h)
  | Except.error e => HostnameResult.fail ("Failed to get hostname: " ++ e)

/-! ## Order-preserving DNS extraction (statement of the spec sentence) -/

/-- Contribution of one resolver line to `nameservers`. -/
def nsLine (line : String) : List String :=
  if pyStartsWith (pyStrip line) "nameserver" then
    (if 2 ≤ (splitWhite (pyStrip line)).length then
       [(splitWhite (pyStrip line)).getD 1 ""]
     else [])
  else []

/-- Contribution of one resolver line to `search_domains`. -/
def searchLine (line : String) : List String :=
  if !(pyStartsWith (pyStrip line) "nameserver") &&
      pyStartsWith (pyStrip line) "search" then
    (if 2 ≤ (splitWhite (pyStrip line)).length then
       (splitWhite (pyStrip line)).drop 1
     else [])
  else []

/-- Order-preserving specification of nameserver extraction: one address
per `nameserver <addr>` line, in file order. -/
def dnsNsOf : List String → List String
  | [] => []
  | line :: rest => nsLine line ++ dnsNsOf rest

/-- Order-preserving specification of search-domain extraction: all listed
domains of every `search <dom1> <dom2> ...` line, in file order. -/
def dnsSearchOf : List String → List String
  | [] => []
  | line :: rest => searchLine line ++ dnsSearchOf rest

/-! ## Concrete host states used as witnesses and counterexamples -/

/-- A bare host: every command fails, no file exists or is readable. -/
def noHost : HostState where
  runCmd := fun _ => ⟨1, "", ""⟩
  pathExists := fun _ => false
  readFile := fun _ => none
  listDir := fun _ => Except.error "ENOENT"
  isFile := fun _ => false

/-- Host on which the sysctl pass marks IPv6 disabled (kernel parameter
value `1`) while a live non-loopback `inet6` address is present. -/
def overrideHost : HostState :=
  { noHost with runCmd := fun c =>
      if c = "ip -6 addr show" then
        ⟨0, "1: lo\n    inet6 ::1/128 scope host\n2: eth0\n    inet6 fe80::2/64 scope link\n", ""⟩
      else if c = "sysctl net.ipv6.conf.all.disable_ipv6" then
        ⟨0, "net.ipv6.conf.all.disable_ipv6 = 1", ""⟩
      else ⟨1, "", ""⟩ }

/-- Host on which two of the three queried kernel parameters report the
value `1` (and the live query fails). -/
def dupSysctlHost : HostState :=
  { noHost with runCmd := fun c =>
      if c = "sysctl net.ipv6.conf.all.disable_ipv6" then
        ⟨0, "net.ipv6.conf.all.disable_ipv6 = 1", ""⟩
      else if c = "sysctl net.ipv6.conf.default.disable_ipv6" then
        ⟨0, "net.ipv6.conf.default.disable_ipv6 = 1", ""⟩
      else ⟨1, "", ""⟩ }

/-- Host on which both the chronyd and the ntpd binaries are present. -/
def bothNtpHost : HostState :=
  { noHost with runCmd := fun c =>
      if c = "which chronyd" then ⟨0, "/usr/sbin/chronyd", ""⟩
      else if c = "which ntpd" then ⟨0, "/usr/sbin/ntpd", ""⟩
      else ⟨1, "", ""⟩ }

/-- Host on which the ntpd binary is present but chronyd (and
systemd-timesyncd) are absent. -/
def ntpdOnlyHost : HostState :=
  { noHost with runCmd := fun c =>
      if c = "which ntpd" then ⟨0, "/usr/sbin/ntpd", ""⟩
      else ⟨1, "", ""⟩ }

/-- Host with a sudoers drop-in directory whose entries all fail to open,
and an unreadable primary sudoers file and group database. -/
def restrictedHost : HostState :=
  { noHost with
      pathExists := fun p => p == "/etc/sudoers.d",
      listDir := fun _ => Except.ok ["10-admins"],
      isFile := fun _ => true }

/-- Host whose sudoers drop-in directory exists but cannot be listed. -/
def deniedDirHost : HostState :=
  { noHost with
      pathExists := fun p => p == "/etc/sudoers.d",
      listDir := fun _ => Except.error "Permission denied" }

/-- Host whose resolver configuration is the concrete example named by the
DNS parsing claim. -/
def dnsHost : HostState :=
  { noHost with
      pathExists := fun p => p == "/etc/resolv.conf",
      readFile := fun p =>
        if p = "/etc/resolv.conf" then
          some "nameserver 8.8.8.8\nsearch a.com b.com\n"
        else none }

/-! ## Helper lemmas on the IPv6 passes -/

/-- A non-matching sysctl step leaves `disabled`, `disable_method` and
`status` untouched (only `sysctl_values` may grow). -/
theorem sysctlStep_no_match (s : HostState) (info : Ipv6Info) (p : String)
    (h : sysctlMatches s p = false) :
    (sysctlStep s info p).disabled = info.disabled ∧
    (sysctlStep s info p).disable_method = info.disable_method ∧
    (sysctlStep s info p).status = info.status := by
  unfold sysctlMatches at h
  unfold sysctlStep
  by_cases hrc : (s.runCmd ("sysctl " ++ p)).rc = 0
  · have hv : ¬ sysctlValueOf s p = "1" := by
      intro hv
      simp [hrc, hv] at h
    simp [hrc, hv]
  · simp [hrc]

/-- A sysctl pass with no matching parameter preserves `disabled`,
`disable_method` and `status`. -/
theorem sysctlPass_no_match (s : HostState) (ps : List String) (info : Ipv6Info)
    (h : ∀ p ∈ ps, sysctlMatches s p = false) :
    (sysctlPass s ps info).disabled = info.disabled ∧
    (sysctlPass s ps info).disable_method = info.disable_method ∧
    (sysctlPass s ps info).status = info.status := by
  induction ps generalizing info with
  | nil => exact ⟨rfl, rfl, rfl⟩
  | cons p ps ih =>
    have hstep := sysctlStep_no_match s info p (h p (by simp))
    have hrest := ih (sysctlStep s info p) (fun q hq => h q (by simp [hq]))
    exact ⟨hrest.1.trans hstep.1, hrest.2.1.trans hstep.2.1, hrest.2.2.trans hstep.2.2⟩

/-- A grub step never touches `status`. -/
theorem grubStep_status (s : HostState) (info : Ipv6Info) (gf : String) :
    (grubStep s info gf).status = info.status := by
  unfold grubStep
  by_cases hex : s.pathExists gf
  · cases hread : s.readFile gf with
    | none => simp [hex, hread]
    | some content =>
      by_cases hc : strContains content "ipv6.disable=1" = true
      · simp only [hex, hread, hc, if_true]
        split <;> rfl
      · simp [hex, hread, hc]
  · simp [hex]

/-- A grub pass never touches `status`. -/
theorem grubPass_status (s : HostState) (gs : List String) (info : Ipv6Info) :
    (grubPass s gs info).status = info.status := by
  induction gs generalizing info with
  | nil => rfl
  | cons g gs ih => exact (ih (grubStep s info g)).trans (grubStep_status s info g)

/-- A non-matching grub step leaves `disabled` untouched. -/
theorem grubStep_disabled_no_match (s : HostState) (info : Ipv6Info) (gf : String)
    (h : grubMatches s gf = false) :
    (grubStep s info gf).disabled = info.disabled := by
  unfold grubMatches at h
  unfold grubStep
  by_cases hex : s.pathExists gf
  · cases hread : s.readFile gf with
    | none => simp [hex, hread]
    | some content =>
      have hc : strContains content "ipv6.disable=1" = false := by
        simpa [hex, hread] using h
      simp [hex, hread, hc]
  · simp [hex]

/-- A grub pass with no matching file leaves `disabled` untouched. -/
theorem grubPass_disabled_no_match (s : HostState) (gs : List String) (info : Ipv6Info)
    (h : ∀ g ∈ gs, grubMatches s g = false) :
    (grubPass s gs info).disabled = info.disabled := by
  induction gs generalizing info with
  | nil => rfl
  | cons g gs ih =>
    have hstep := grubStep_disabled_no_match s info g (h g (by simp))
    have hrest := ih (grubStep s info g) (fun q hq => h q (by simp [hq]))
    exact hrest.trans hstep

/-- When the live query reports a non-loopback `inet6` line, the live pass
forces `disabled := false` and `status := enabled` on any prior state. -/
theorem livePass_override (s : HostState) (info : Ipv6Info)
    (hrc : (s.runCmd "ip -6 addr show").rc = 0)
    (hne : pyStrip (s.runCmd "ip -6 addr show").out ≠ "")
    (hline : ∃ line ∈ linesOf (s.runCmd "ip -6 addr show").out,
      liveLineHasIpv6 line = true) :
    livePass s info = { info with disabled := false, status := some "enabled" } := by
  have hany : (linesOf (s.runCmd "ip -6 addr show").out).any liveLineHasIpv6 = true :=
    List.any_eq_true.mpr hline
  simp [livePass, hany, hrc, hne]

/-- When the live query reports no non-loopback `inet6` line and nothing
marked IPv6 disabled, the live pass changes nothing. -/
theorem livePass_no_live (s : HostState) (info : Ipv6Info)
    (hline : ∀ line ∈ linesOf (s.runCmd "ip -6 addr show").out,
      liveLineHasIpv6 line = false)
    (hdis : info.disabled = false) :
    livePass s info = info := by
  have hany : (linesOf (s.runCmd "ip -6 addr show").out).any liveLineHasIpv6 = false := by
    rw [List.any_eq_false]
    intro x hx
    simp [hline x hx]
  simp [livePass, hany, hdis]

/-! ## Claim theorems: IPv6 -/

/-- C1.  IPv6 override law: whenever the live-interface query succeeds with
non-empty output containing a non-loopback `inet6` line, `get_ipv6_status`
returns `disabled = false` and `status = enabled`, for EVERY host state —
in particular even when the sysctl or grub passes had set `disabled = true`
(live evidence wins over static configuration evidence). -/
theorem ipv6_live_override (s : HostState)
    (hrc : (s.runCmd "ip -6 addr show").rc = 0)
    (hne : pyStrip (s.runCmd "ip -6 addr show").out ≠ "")
    (hline : ∃ line ∈ linesOf (s.runCmd "ip -6 addr show").out,
      liveLineHasIpv6 line = true) :
    (get_ipv6_status s).disabled = false ∧
    (get_ipv6_status s).status = some "enabled" := by
  unfold get_ipv6_status
  rw [livePass_override s _ hrc hne hline]
  exact ⟨rfl, rfl⟩

/-- Witness for C1: on `overrideHost` the kernel-parameter pass has marked
disabled, a live address exists, and the result is enabled / not disabled. -/
theorem ipv6_live_override_witness :
    ((overrideHost.runCmd "ip -6 addr show").rc = 0 ∧
     pyStrip (overrideHost.runCmd "ip -6 addr show").out ≠ "" ∧
     (∃ line ∈ linesOf (overrideHost.runCmd "ip -6 addr show").out,
       liveLineHasIpv6 line = true) ∧
     sysctlMatches overrideHost "net.ipv6.conf.all.disable_ipv6" = true) ∧
    (get_ipv6_status overrideHost).disabled = false ∧
    (get_ipv6_status overrideHost).status = some "enabled" :=
  ⟨⟨by decide, by decide, by decide, by decide⟩,
   ipv6_live_override overrideHost (by decide) (by decide) (by decide)⟩

/-- C7.  IPv6 conjunction law: with no sysctl match, no grub match and no
live non-loopback `inet6` line, `get_ipv6_status` returns
`disabled = false` with the `status` key absent. -/
theorem ipv6_conjunction (s : HostState)
    (hsys : ∀ p ∈ sysctl_params, sysctlMatches s p = false)
    (hgrub : ∀ g ∈ grub_files, grubMatches s g = false)
    (hlive : ∀ line ∈ linesOf (s.runCmd "ip -6 addr show").out,
      liveLineHasIpv6 line = false) :
    (get_ipv6_status s).disabled = false ∧ (get_ipv6_status s).status = none := by
  have h1 := sysctlPass_no_match s sysctl_params ⟨false, [], [], none⟩ hsys
  have h2d := grubPass_disabled_no_match s grub_files
    (sysctlPass s sysctl_params ⟨false, [], [], none⟩) hgrub
  have h2s := grubPass_status s grub_files (sysctlPass s sysctl_params ⟨false, [], [], none⟩)
  have hdis : (grubPass s grub_files
      (sysctlPass s sysctl_params ⟨false, [], [], none⟩)).disabled = false := by
    rw [h2d, h1.1]
  have hlp := livePass_no_live s _ hlive hdis
  unfold get_ipv6_status
  rw [hlp]
  refine ⟨hdis, ?_⟩
  rw [h2s, h1.2.2]

/-- Witness for C7: the bare host has no disable evidence and no live
address; the result is not disabled and carries no live status. -/
theorem ipv6_conjunction_witness :
    ((∀ p ∈ sysctl_params, sysctlMatches noHost p = false) ∧
     (∀ g ∈ grub_files, grubMatches noHost g = false) ∧
     (∀ line ∈ linesOf (noHost.runCmd "ip -6 addr show").out,
       liveLineHasIpv6 line = false)) ∧
    (get_ipv6_status noHost).disabled = false ∧ (get_ipv6_status noHost).status = none :=
  ⟨⟨by decide, by decide, by decide⟩,
   ipv6_conjunction noHost (by decide) (by decide) (by decide)⟩

/-! ## Counting occurrences of "sysctl" in disable_method -/

/-- One sysctl step adds exactly one `"sysctl"` entry when its parameter
matches, none otherwise. -/
theorem sysctlStep_count (s : HostState) (info : Ipv6Info) (p : String) :
    (sysctlStep s info p).disable_method.count "sysctl" =
      info.disable_method.count "sysctl" + (if sysctlMatches s p then 1 else 0) := by
  unfold sysctlStep sysctlMatches
  by_cases hrc : (s.runCmd ("sysctl " ++ p)).rc = 0
  · by_cases hv : sysctlValueOf s p = "1"
    · simp [hrc, hv, List.count_append]
    · simp [hrc, hv]
  · simp [hrc]

/-- The sysctl pass appends one `"sysctl"` entry per matching parameter. -/
theorem sysctlPass_count (s : HostState) (ps : List String) (info : Ipv6Info) :
    (sysctlPass s ps info).disable_method.count "sysctl" =
      info.disable_method.count "sysctl" +
        (ps.filter (fun p => sysctlMatches s p)).length := by
  induction ps generalizing info with
  | nil => simp [sysctlPass]
  | cons p ps ih =>
    have hstep := sysctlStep_count s info p
    have hrest := ih (sysctlStep s info p)
    by_cases h : sysctlMatches s p = true
    · rw [show sysctlPass s (p :: ps) info = sysctlPass s ps (sysctlStep s info p) from rfl,
        hrest, hstep]
      simp [h, List.filter_cons]
      omega
    · rw [show sysctlPass s (p :: ps) info = sysctlPass s ps (sysctlStep s info p) from rfl,
        hrest, hstep]
      simp [h, List.filter_cons]

/-- A grub step never adds a `"sysctl"` entry. -/
theorem grubStep_count (s : HostState) (info : Ipv6Info) (gf : String) :
    (grubStep s info gf).disable_method.count "sysctl" =
      info.disable_method.count "sysctl" := by
  unfold grubStep
  by_cases hex : s.pathExists gf
  · cases hread : s.readFile gf with
    | none => simp [hex, hread]
    | some content =>
      by_cases hc : strContains content "ipv6.disable=1" = true
      · simp only [hex, hread, hc, if_true]
        split
        · rfl
        · simp [List.count_append]
      · simp [hex, hread, hc]
  · simp [hex]

/-- The grub pass never adds a `"sysctl"` entry. -/
theorem grubPass_count (s : HostState) (gs : List String) (info : Ipv6Info) :
    (grubPass s gs info).disable_method.count "sysctl" =
      info.disable_method.count "sysctl" := by
  induction gs generalizing info with
  | nil => rfl
  | cons g gs ih => exact (ih (grubStep s info g)).trans (grubStep_count s info g)

/-- The live pass never touches `disable_method`. -/
theorem livePass_disable_method (s : HostState) (info : Ipv6Info) :
    (livePass s info).disable_method = info.disable_method := by
  simp only [livePass]
  split
  · split
    · rfl
    · split
      · rfl
      · rfl
  · rfl

/-- C2 (amended).  In every result of `get_ipv6_status`, the number of
`"sysctl"` entries in `disable_method` equals the number of queried kernel
parameters whose value was `"1"` — so up to three, not at most one: the
source appends `"sysctl"` once per matching parameter without the dedup
check it applies to `"grub"`. -/
theorem sysctl_method_count (s : HostState) :
    (get_ipv6_status s).disable_method.count "sysctl" =
      (sysctl_params.filter (fun p => sysctlMatches s p)).length := by
  unfold get_ipv6_status
  rw [livePass_disable_method, grubPass_count, sysctlPass_count]
  simp

/-- Counterexample to C2 as stated: on `dupSysctlHost` the string
`"sysctl"` occurs twice in `disable_method`, not at most once. -/
theorem sysctl_method_dup_cex :
    ¬ ((get_ipv6_status dupSysctlHost).disable_method.count "sysctl" ≤ 1) := by
  decide

/-! ## NTP block lemmas -/

/-- When the chronyd binary is present, the chronyd block claims the
service and runs exactly its own two commands. -/
theorem chronyBlock_found (s : HostState) (info : NtpInfo)
    (h : (s.runCmd "which chronyd").rc = 0) :
    (chronyBlock s info).1.service = "chronyd" ∧
    (chronyBlock s info).2 = ["which chronyd", "systemctl is-active chronyd"] := by
  constructor
  · simp only [chronyBlock, h, if_true]
    split
    · split <;> rfl
    · rfl
  · simp [chronyBlock, h]

/-- When the chronyd binary is absent, the chronyd block only probes it. -/
theorem chronyBlock_absent (s : HostState) (info : NtpInfo)
    (h : (s.runCmd "which chronyd").rc ≠ 0) :
    chronyBlock s info = (info, ["which chronyd"]) := by
  unfold chronyBlock
  rw [if_neg h]

/-- When a service was already identified, the ntpd block only runs the
`which ntpd` probe and changes nothing. -/
theorem ntpdBlock_skip (s : HostState) (info : NtpInfo)
    (h : info.service ≠ "unknown") :
    ntpdBlock s info = (info, ["which ntpd"]) := by
  unfold ntpdBlock
  rw [if_neg]
  rintro ⟨-, h2⟩
  exact h h2

/-- When no service was identified yet and the ntpd binary is present, the
ntpd block claims the service and runs exactly its own two commands. -/
theorem ntpdBlock_found (s : HostState) (info : NtpInfo)
    (h : (s.runCmd "which ntpd").rc = 0) (hserv : info.service = "unknown") :
    (ntpdBlock s info).1.service = "ntpd" ∧
    (ntpdBlock s info).2 = ["which ntpd", "systemctl is-active ntpd"] := by
  constructor
  · simp only [ntpdBlock, h, hserv, and_self, if_true]
    split
    · split <;> rfl
    · rfl
  · simp [ntpdBlock, h, hserv]

/-- When the ntpd binary is absent, the ntpd block only probes it. -/
theorem ntpdBlock_absent (s : HostState) (info : NtpInfo)
    (h : (s.runCmd "which ntpd").rc ≠ 0) :
    ntpdBlock s info = (info, ["which ntpd"]) := by
  unfold ntpdBlock
  rw [if_neg]
  rintro ⟨h1, -⟩
  exact h h1

/-- When a service was already identified, the systemd-timesyncd block only
runs the `which systemd-timesyncd` probe and changes nothing. -/
theorem timesyncdBlock_skip (s : HostState) (info : NtpInfo)
    (h : info.service ≠ "unknown") :
    timesyncdBlock s info = (info, ["which systemd-timesyncd"]) := by
  unfold timesyncdBlock
  rw [if_neg]
  rintro ⟨-, h2⟩
  exact h h2

/-- When the systemd-timesyncd binary is absent, its block only probes it. -/
theorem timesyncdBlock_absent (s : HostState) (info : NtpInfo)
    (h : (s.runCmd "which systemd-timesyncd").rc ≠ 0) :
    timesyncdBlock s info = (info, ["which systemd-timesyncd"]) := by
  unfold timesyncdBlock
  rw [if_neg]
  rintro ⟨h1, -⟩
  exact h h1

/-! ## Claim theorems: NTP -/

/-- C3 (amended).  Whenever a higher-priority backend binary is detected,
`service` resolves to the first backend found present and no
lower-priority backend is probed for service identity, active status or
servers (its `systemctl is-active ...` status query and the
`timedatectl show-timesync --all` server query are never run) — but the
binary presence checks (`which ...`) of the lower-priority backends ARE
still executed unconditionally; only their results are ignored.  Stated
for both non-trivial detections: chronyd present (ntpd and
systemd-timesyncd lower), and chronyd absent with ntpd present
(systemd-timesyncd lower). -/
theorem ntp_first_match_amended (s : HostState) :
    ((s.runCmd "which chronyd").rc = 0 →
      (get_ntp_settings s).1.service = "chronyd" ∧
      "which ntpd" ∈ (get_ntp_settings s).2 ∧
      "which systemd-timesyncd" ∈ (get_ntp_settings s).2 ∧
      "systemctl is-active ntpd" ∉ (get_ntp_settings s).2 ∧
      "systemctl is-active systemd-timesyncd" ∉ (get_ntp_settings s).2 ∧
      "timedatectl show-timesync --all" ∉ (get_ntp_settings s).2) ∧
    ((s.runCmd "which chronyd").rc ≠ 0 → (s.runCmd "which ntpd").rc = 0 →
      (get_ntp_settings s).1.service = "ntpd" ∧
      "which systemd-timesyncd" ∈ (get_ntp_settings s).2 ∧
      "systemctl is-active systemd-timesyncd" ∉ (get_ntp_settings s).2 ∧
      "timedatectl show-timesync --all" ∉ (get_ntp_settings s).2) := by
  have hE : get_ntp_settings s =
      ((timesyncdBlock s (ntpdBlock s (chronyBlock s initNtp).1).1).1,
       (chronyBlock s initNtp).2 ++ (ntpdBlock s (chronyBlock s initNtp).1).2 ++
         (timesyncdBlock s (ntpdBlock s (chronyBlock s initNtp).1).1).2) := rfl
  constructor
  · intro h
    have hc := chronyBlock_found s initNtp h
    have hserv : (chronyBlock s initNtp).1.service = "chronyd" := hc.1
    have hb2 : ntpdBlock s (chronyBlock s initNtp).1 =
        ((chronyBlock s initNtp).1, ["which ntpd"]) :=
      ntpdBlock_skip s _ (by rw [hserv]; decide)
    have hb3 : timesyncdBlock s (chronyBlock s initNtp).1 =
        ((chronyBlock s initNtp).1, ["which systemd-timesyncd"]) :=
      timesyncdBlock_skip s _ (by rw [hserv]; decide)
    rw [hE]
    simp only [hb2, hb3, hc.2, hserv]
    refine ⟨by trivial, by decide, by decide, by decide, by decide, by decide⟩
  · intro h1 h2
    have hb1 := chronyBlock_absent s initNtp h1
    have hn := ntpdBlock_found s initNtp h2 rfl
    have hserv2 : (ntpdBlock s initNtp).1.service = "ntpd" := hn.1
    have hb3 : timesyncdBlock s (ntpdBlock s initNtp).1 =
        ((ntpdBlock s initNtp).1, ["which systemd-timesyncd"]) :=
      timesyncdBlock_skip s _ (by rw [hserv2]; decide)
    rw [hE]
    simp only [hb1]
    simp only [hb3, hn.2, hserv2]
    refine ⟨by trivial, by decide, by decide, by decide⟩

/-- Counterexample to C3 as stated: on `bothNtpHost` the higher-priority
chronyd is detected, yet the lower-priority ntpd backend is still probed —
`which ntpd` appears in the command trace. -/
theorem ntp_lower_probe_cex :
    (get_ntp_settings bothNtpHost).1.service = "chronyd" ∧
    "which ntpd" ∈ (get_ntp_settings bothNtpHost).2 := by
  decide

/-- Witness for the amended C3, exercising both detections: on
`bothNtpHost` chronyd wins, the lower presence probes run, and no
lower-priority status or server query runs; on `ntpdOnlyHost` ntpd is the
detected higher-priority backend and systemd-timesyncd is never queried
for status or servers. -/
theorem ntp_first_match_amended_witness :
    ((bothNtpHost.runCmd "which chronyd").rc = 0 ∧
     (get_ntp_settings bothNtpHost).1.service = "chronyd" ∧
     "which ntpd" ∈ (get_ntp_settings bothNtpHost).2 ∧
     "which systemd-timesyncd" ∈ (get_ntp_settings bothNtpHost).2 ∧
     "systemctl is-active ntpd" ∉ (get_ntp_settings bothNtpHost).2 ∧
     "systemctl is-active systemd-timesyncd" ∉ (get_ntp_settings bothNtpHost).2 ∧
     "timedatectl show-timesync --all" ∉ (get_ntp_settings bothNtpHost).2) ∧
    ((ntpdOnlyHost.runCmd "which chronyd").rc ≠ 0 ∧
     (ntpdOnlyHost.runCmd "which ntpd").rc = 0 ∧
     (get_ntp_settings ntpdOnlyHost).1.service = "ntpd" ∧
     "which systemd-timesyncd" ∈ (get_ntp_settings ntpdOnlyHost).2 ∧
     "systemctl is-active systemd-timesyncd" ∉ (get_ntp_settings ntpdOnlyHost).2 ∧
     "timedatectl show-timesync --all" ∉ (get_ntp_settings ntpdOnlyHost).2) :=
  ⟨⟨by decide, (ntp_first_match_amended bothNtpHost).1 (by decide)⟩,
   ⟨by decide, by decide, (ntp_first_match_amended ntpdOnlyHost).2 (by decide) (by decide)⟩⟩

/-- C4.  When none of the three time-sync binaries is present,
`get_ntp_settings` returns exactly the neutral record: the no-service
sentinel, not active, no servers (the `service = none` of the spec is the
`"unknown"` sentinel of the source, `active` its `enabled` field). -/
theorem ntp_none_default (s : HostState)
    (h1 : (s.runCmd "which chronyd").rc ≠ 0)
    (h2 : (s.runCmd "which ntpd").rc ≠ 0)
    (h3 : (s.runCmd "which systemd-timesyncd").rc ≠ 0) :
    (get_ntp_settings s).1 = ⟨"unknown", false, [], "unknown"⟩ := by
  have hb1 := chronyBlock_absent s initNtp h1
  have hE : get_ntp_settings s =
      ((timesyncdBlock s (ntpdBlock s (chronyBlock s initNtp).1).1).1,
       (chronyBlock s initNtp).2 ++ (ntpdBlock s (chronyBlock s initNtp).1).2 ++
         (timesyncdBlock s (ntpdBlock s (chronyBlock s initNtp).1).1).2) := rfl
  rw [hE]
  simp only [hb1]
  simp only [ntpdBlock_absent s initNtp h2]
  simp only [timesyncdBlock_absent s initNtp h3]
  rfl

/-- Witness for C4: on the bare host (no binaries at all) the result is the
neutral record. -/
theorem ntp_none_default_witness :
    ((noHost.runCmd "which chronyd").rc ≠ 0 ∧
     (noHost.runCmd "which ntpd").rc ≠ 0 ∧
     (noHost.runCmd "which systemd-timesyncd").rc ≠ 0) ∧
    (get_ntp_settings noHost).1 = ⟨"unknown", false, [], "unknown"⟩ :=
  ⟨⟨by decide, by decide, by decide⟩,
   ntp_none_default noHost (by decide) (by decide) (by decide)⟩

/-! ## Claim theorems: sudo users and the aggregator -/

/-- C5 (amended).  Per-file read errors (unreadable primary sudoers file,
unreadable drop-in files, unreadable group database) are silently skipped
and `get_sudo_users` still returns a result — PROVIDED the drop-in
directory is absent or its listing succeeds; a permission error on listing
the drop-in directory itself is NOT caught and fails the collector. -/
theorem sudo_users_ok_amended (s : HostState)
    (h : s.pathExists "/etc/sudoers.d" = false ∨
      ∃ l, s.listDir "/etc/sudoers.d" = Except.ok l) :
    ∃ users, get_sudo_users s = Except.ok users := by
  by_cases hpe : s.pathExists "/etc/sudoers.d" = true
  · have hl : ∃ l, s.listDir "/etc/sudoers.d" = Except.ok l := by
      rcases h with h | h
      · rw [hpe] at h
        exact absurd h (by decide)
      · exact h
    obtain ⟨l, hl⟩ := hl
    refine ⟨collectSudoUsers s (["/etc/sudoers"] ++ sudoersDropIns s l), ?_⟩
    unfold get_sudo_users
    rw [if_pos hpe, hl]
  · have hpe2 : s.pathExists "/etc/sudoers.d" = false := by
      simpa using hpe
    refine ⟨collectSudoUsers s ["/etc/sudoers"], ?_⟩
    unfold get_sudo_users
    rw [if_neg]
    rw [hpe2]
    exact Bool.false_ne_true

/-- Witness for the amended C5: on `restrictedHost` every single file open
fails, yet the collector returns (the empty set). -/
theorem sudo_users_ok_amended_witness :
    (restrictedHost.pathExists "/etc/sudoers.d" = false ∨
      ∃ l, restrictedHost.listDir "/etc/sudoers.d" = Except.ok l) ∧
    ∃ users, get_sudo_users restrictedHost = Except.ok users :=
  ⟨Or.inr ⟨["10-admins"], rfl⟩,
   sudo_users_ok_amended restrictedHost (Or.inr ⟨["10-admins"], rfl⟩)⟩

/-- Counterexample to C5 as stated: an unreadable sudoers drop-in directory
is NOT silently skipped — `get_sudo_users` propagates the error and the
collector fails as a whole instead of returning a result. -/
theorem sudo_listdir_error_cex :
    get_sudo_users deniedDirHost = Except.error "Permission denied" := by
  rfl

/-- C6.  The aggregator is all-or-nothing: every invocation either fails
with exactly the message of the collector fault and no fact block, or
exits with all four fact blocks present (the only uncaught exception path
of the source being the sudoers drop-in listing). -/
theorem aggregator_all_or_nothing (s : HostState) :
    (∃ e, get_sudo_users s = Except.error e ∧
      system_info_main s = ModuleResult.fail e) ∨
    (∃ users, get_sudo_users s = Except.ok users ∧
      system_info_main s = ModuleResult.exit false users (get_ntp_settings s).1
        (get_dns_settings s) (get_ipv6_status s)) := by
  cases h : get_sudo_users s with
  | error e => exact Or.inl ⟨e, rfl, by simp [system_info_main, h]⟩
  | ok users => exact Or.inr ⟨users, rfl, by simp [system_info_main, h]⟩

/-! ## Claim theorems: DNS -/

/-- One fold step appends exactly the contributions of its line. -/
theorem dnsStep_eq (acc : List String × List String) (line : String) :
    dnsStep acc line = (acc.1 ++ nsLine line, acc.2 ++ searchLine line) := by
  unfold dnsStep nsLine searchLine
  by_cases h1 : pyStartsWith (pyStrip line) "nameserver" = true
  · by_cases h2 : 2 ≤ (splitWhite (pyStrip line)).length
    · simp [h1, h2]
    · simp [h1, h2]
  · by_cases h3 : pyStartsWith (pyStrip line) "search" = true
    · by_cases h2 : 2 ≤ (splitWhite (pyStrip line)).length
      · simp [h1, h3, h2]
      · simp [h1, h3, h2]
    · simp [h1, h3]

/-- The resolver-file fold equals the order-preserving extraction,
relative to any already-accumulated prefix. -/
theorem dns_fold_spec (lines : List String) (ns sd : List String) :
    lines.foldl dnsStep (ns, sd) = (ns ++ dnsNsOf lines, sd ++ dnsSearchOf lines) := by
  induction lines generalizing ns sd with
  | nil => simp [dnsNsOf, dnsSearchOf]
  | cons line rest ih =>
    rw [List.foldl_cons, dnsStep_eq, ih]
    simp [dnsNsOf, dnsSearchOf, List.append_assoc]

/-- C8.  DNS parsing appends the address of every `nameserver <addr>` line
to `nameservers` and all domains of every `search ...` line to
`search_domains`, preserving file order (the concrete instance named by
the claim is the witness below). -/
theorem dns_parse_order (s : HostState) (content : String)
    (hex : s.pathExists "/etc/resolv.conf" = true)
    (hrd : s.readFile "/etc/resolv.conf" = some content) :
    (get_dns_settings s).nameservers = dnsNsOf (linesOf content) ∧
    (get_dns_settings s).search_domains = dnsSearchOf (linesOf content) := by
  unfold get_dns_settings
  rw [hex, hrd]
  simp [dns_fold_spec]

/-- Witness for C8: the concrete input of the claim yields exactly
`nameservers = [8.8.8.8]` and `search_domains = [a.com, b.com]`. -/
theorem dns_parse_order_witness :
    (dnsHost.pathExists "/etc/resolv.conf" = true ∧
     dnsHost.readFile "/etc/resolv.conf" =
       some "nameserver 8.8.8.8\nsearch a.com b.com\n") ∧
    (get_dns_settings dnsHost).nameservers = ["8.8.8.8"] ∧
    (get_dns_settings dnsHost).search_domains = ["a.com", "b.com"] :=
  ⟨⟨by decide, by decide⟩,
   by
     have h := dns_parse_order dnsHost "nameserver 8.8.8.8\nsearch a.com b.com\n"
       (by decide) (by decide)
     exact ⟨h.1.trans (by decide), h.2.trans (by decide)⟩⟩

/-! ## Claim theorems: hostname_check -/

/-- A list is a prefix of itself followed by anything. -/
theorem isPrefixOf_append_self (l t : List Char) : l.isPrefixOf (l ++ t) = true := by
  induction l with
  | nil =>
    cases t with
    | nil => rfl
    | cons c cs => rfl
  | cons c cs ih => simp [List.isPrefixOf, ih]

/-- C10.  When the hostname lookup succeeds, `hostname_check` exits with
`changed = false` and the looked-up hostname; when it raises, the module
reports a single failure whose message starts with
`Failed to get hostname:`. -/
theorem hostname_check_behavior (g : Except String String) :
    (∀ h, g = Except.ok h →
      hostname_check_main g =
        HostnameResult.exit false h ("Hostname (Python): " ++ h)) ∧
    (∀ e, g = Except.error e →
      ∃ m, hostname_check_main g = HostnameResult.fail m ∧
        pyStartsWith m "Failed to get hostname:" = true) := by
  constructor
  · intro h hg
    rw [hg]
    rfl
  · intro e hg
    rw [hg]
    refine ⟨"Failed to get hostname: " ++ e, rfl, ?_⟩
    have hdata : ("Failed to get hostname: " ++ e).data =
        ("Failed to get hostname:").data ++ (' ' :: e.data) := by
      show ("Failed to get hostname: ").data ++ e.data =
        ("Failed to get hostname:").data ++ (' ' :: e.data)
      rw [show ("Failed to get hostname: ").data =
        ("Failed to get hostname:").data ++ [' '] from by decide]
      rw [List.append_assoc]
      rfl
    unfold pyStartsWith
    rw [hdata]
    exact isPrefixOf_append_self _ _

/-- Witness for C10: a successful lookup of `web01` and a lookup raising
with message `boom`. -/
theorem hostname_check_behavior_witness :
    (hostname_check_main (Except.ok "web01") =
      HostnameResult.exit false "web01" ("Hostname (Python): " ++ "web01")) ∧
    (∃ m, hostname_check_main (Except.error "boom") = HostnameResult.fail m ∧
      pyStartsWith m "Failed to get hostname:" = true) :=
  ⟨(hostname_check_behavior (Except.ok "web01")).1 "web01" rfl,
   (hostname_check_behavior (Except.error "boom")).2 "boom" rfl⟩
